import Mathlib

/-!
Verification of the client session store of the Real-Time-Chat-App repository
(React/TypeScript frontend, `ChatBody.tsx` / `App.tsx` / `MessageInput.tsx`).

The development shallowly embeds the localStorage-backed state of the client
(per-room message lists, per-(room,user) like maps, per-user joined-room
lists) and the handlers that mutate it: loading and normalizing a room's
message history, appending a relayed chat message, applying a relayed
like delta, the local like toggle, room rename, room delete, logout, and
`addRoomForUser`.  Machine integers do not occur (JS numbers here are used
as exact small integers); like counters are modelled as `Int`.
-/

/-- A raw message object as it sits (JSON-parsed) in localStorage: every
field may be absent, `likes = none` encodes "absent or not a number"
(the code checks `typeof m.likes === "number"`). -/
structure RawMsg where
  id : Option String
  username : Option String
  message : Option String
  timestamp : Option String
  likes : Option Int
  room : Option String
deriving DecidableEq, Repr

/-- The normalized in-memory `ChatMessage` of `ChatBody.tsx`: all fields
present except `room`, which the TS interface declares optional. -/
structure ChatMessage where
  id : String
  username : String
  message : String
  timestamp : String
  likes : Int
  room : Option String
deriving DecidableEq, Repr

/-- An incoming `chat message` socket payload (the TS interface guarantees
the string fields, the handler re-checks `likes` and `room`). -/
structure InMsg where
  id : String
  username : String
  message : String
  timestamp : String
  likes : Option Int
  room : Option String
deriving DecidableEq, Repr

/-- A value stored under a localStorage key: either a well-formed JSON
encoding of `α` or a string on which `JSON.parse` (or the subsequent
array traversal) throws. -/
inductive Stored (α : Type) where
  | ok (v : α)
  | corrupt
deriving DecidableEq, Repr

/-- The per-user like record `Record<string, boolean>`: message id to
"I have liked this". -/
def LikedMap := String → Option Bool

/-- Reading `!!prev[id]` : absent keys read as `false`. -/
def lmGet (m : LikedMap) (id : String) : Bool := (m id).getD false

/-- The spread update `{...prev, [id]: b}`. -/
def lmSet (m : LikedMap) (id : String) (b : Bool) : LikedMap :=
  fun k => if k = id then some b else m k

/-- The empty like record `{}`. -/
def lmEmpty : LikedMap := fun _ => none

/-- The localStorage contents relevant to the app, split by the three key
namespaces used by the source: `chatMessages:<room>`,
`likedMap:<room>:<user>` and `userRooms:<user>`. -/
structure Storage where
  chatMessages : String → Option (Stored (List RawMsg))
  likedMap : String → String → Option (Stored LikedMap)
  userRooms : String → Option (Stored (List String))

/-- localStorage with nothing stored. -/
def emptyStorage : Storage :=
  { chatMessages := fun _ => none, likedMap := fun _ _ => none, userRooms := fun _ => none }

/-- `localStorage.setItem`/`removeItem` on a `chatMessages:<room>` key. -/
def setMsgs (room : String) (v : Option (Stored (List RawMsg))) (st : Storage) : Storage :=
  { st with chatMessages := fun k => if k = room then v else st.chatMessages k }

/-- `localStorage.setItem`/`removeItem` on a `likedMap:<room>:<user>` key. -/
def setLiked (room user : String) (v : Option (Stored LikedMap)) (st : Storage) : Storage :=
  { st with likedMap := fun r u => if r = room ∧ u = user then v else st.likedMap r u }

/-- `localStorage.setItem`/`removeItem` on a `userRooms:<user>` key. -/
def setRooms (user : String) (v : Option (Stored (List String))) (st : Storage) : Storage :=
  { st with userRooms := fun k => if k = user then v else st.userRooms k }

/-- The `username || "guest"` part of the liked-map key. -/
def userKey (username : String) : String := if username = "" then "guest" else username

/-- The room guard `if (data.room && data.room !== room) return`: a payload
room is a mismatch only when it is truthy (non-empty) and differs from the
open room. -/
def roomMismatch (mr : Option String) (cur : String) : Bool :=
  match mr with
  | none => false
  | some r => decide (r ≠ "" ∧ r ≠ cur)

/-- JSON.stringify of one in-memory message: all present fields are kept
(an absent optional `room` stays absent). -/
def toRaw (m : ChatMessage) : RawMsg :=
  { id := some m.id, username := some m.username, message := some m.message,
    timestamp := some m.timestamp, likes := some m.likes, room := m.room }

/-- Normalization of one stored raw message (ChatBody effect, lines 34-41):
missing `id` gets a fresh uuid, missing `username` becomes `"Unknown"`,
missing text becomes `""`, missing timestamp becomes "now", a non-number
`likes` becomes `0`, a missing `room` becomes the current room. -/
def normalizeMsg (freshId now room : String) (m : RawMsg) : ChatMessage :=
  { id := m.id.getD freshId, username := m.username.getD "Unknown",
    message := m.message.getD "", timestamp := m.timestamp.getD now,
    likes := m.likes.getD 0, room := some (m.room.getD room) }

/-- `parsed.map(...)` over the stored array, feeding a fresh uuid to each
position (`fresh i` is the uuid generated for the element at index `i`). -/
def normalizeFrom (fresh : Nat → String) (now room : String) : Nat → List RawMsg → List ChatMessage
  | _, [] => []
  | i, m :: rest => normalizeMsg (fresh i) now room m :: normalizeFrom fresh now room (i + 1) rest

/-- Normalize a whole stored list, indices starting at 0. -/
def normalizeList (fresh : Nat → String) (now room : String) (l : List RawMsg) : List ChatMessage :=
  normalizeFrom fresh now room 0 l

/-- `localStorage.setItem(storageKey, JSON.stringify(updated))`: persist a
room's in-memory message list. -/
def persistMsgs (room : String) (l : List ChatMessage) (st : Storage) : Storage :=
  setMsgs room (some (.ok (l.map toRaw))) st

/-- The message-history restore of the ChatBody effect (lines 30-50): an
absent key yields the empty list; a parse failure removes the corrupted
entry and yields the empty list; a stored array is normalized, becomes the
new state, and the normalized form is written back to storage. -/
def loadRoomMessages (room : String) (fresh : Nat → String) (now : String) (st : Storage) :
    List ChatMessage × Storage :=
  match st.chatMessages room with
  | none => ([], st)
  | some (.ok l) =>
      let normalized := normalizeList fresh now room l
      (normalized, persistMsgs room normalized st)
  | some .corrupt => ([], setMsgs room none st)

/-- `handleChatMessage` (ChatBody lines 53-67): drop the payload if tagged
for a different room, otherwise normalize `likes`/`room`, append, persist. -/
def handleChatMessage (cur : String) (msg : InMsg) (msgs : List ChatMessage) (st : Storage) :
    List ChatMessage × Storage :=
  if roomMismatch msg.room cur then (msgs, st)
  else
    let m : ChatMessage :=
      { id := msg.id, username := msg.username, message := msg.message,
        timestamp := msg.timestamp, likes := msg.likes.getD 0,
        room := some (msg.room.getD cur) }
    let updated := msgs ++ [m]
    (updated, persistMsgs cur updated st)

/-- The shared likes update `prev.map(m => m.id === id ? {...m, likes: (m.likes ?? 0) + delta} : m)`
(ChatBody lines 74-78 and 117-121; `likes` is total here, so `?? 0` is the
field itself). -/
def bumpLikes (id : String) (delta : Int) (l : List ChatMessage) : List ChatMessage :=
  l.map fun m => if m.id = id then { m with likes := m.likes + delta } else m

/-- `handleToggleLike` (ChatBody lines 70-82): apply a relayed like delta
to the open room's list, persist; no-op if the payload is tagged for a
different room. -/
def handleToggleLike (cur : String) (id : String) (delta : Int) (evRoom : Option String)
    (msgs : List ChatMessage) (st : Storage) : List ChatMessage × Storage :=
  if roomMismatch evRoom cur then (msgs, st)
  else
    let updated := bumpLikes id delta msgs
    (updated, persistMsgs cur updated st)

/-- Socket events emitted by the client. -/
inductive Ev where
  | join (u r : String)
  | leave (u r : String)
  | toggle (id : String) (delta : Int) (room : String)
deriving DecidableEq, Repr

/-- The full client-side store state `ChatBody` keeps in React state:
message list and like record (plus localStorage). -/
structure StoreState where
  msgs : List ChatMessage
  liked : LikedMap
  store : Storage

/-- `handleLikeClick` (ChatBody lines 109-134): flip the per-user boolean,
compute the delta (+1 if now liked, -1 if now unliked), bump the local
counter, persist both, and emit the `toggle like` event. -/
def handleLikeClick (cur user id : String) (s : StoreState) : StoreState × Ev :=
  let alreadyLiked := lmGet s.liked id
  let next := lmSet s.liked id (!alreadyLiked)
  let delta : Int := if alreadyLiked then -1 else 1
  let updated := bumpLikes id delta s.msgs
  let st1 := persistMsgs cur updated s.store
  let st2 := setLiked cur (userKey user) (some (.ok next)) st1
  (⟨updated, next, st2⟩, .toggle id delta cur)

/-- `storedRooms`: the `userRooms:<user>` list as `addRoomForUser` reads it
(absent key or parse failure falls back to `[]`). -/
def storedRooms (st : Storage) (user : String) : List String :=
  match st.userRooms user with
  | some (.ok l) => l
  | _ => []

/-- `addRoomForUser` (App lines 306-333): read the user's room list, append
the room if it is not already present, and persist; returns the new React
`joinedRooms` state together with the new storage. -/
def addRoomForUser (user roomName : String) (st : Storage) : List String × Storage :=
  let arr := storedRooms st user
  if roomName ∈ arr then (arr, st)
  else
    let updated := arr ++ [roomName]
    (updated, setRooms user (some (.ok updated)) st)

/-- ASCII whitespace, as removed by the JavaScript `String.prototype.trim`
used by the source (the Unicode cases are irrelevant to the claims). -/
def jsWhitespace (c : Char) : Bool := c = ' ' || c = '\t' || c = '\n' || c = '\r'

/-- The JavaScript `.trim()`: drop leading and trailing whitespace. -/
def jsTrim (s : String) : String :=
  ⟨((s.data.dropWhile jsWhitespace).reverse.dropWhile jsWhitespace).reverse⟩

/-- `switchToRoom` (App lines 347-375): with an empty (trimmed) username
only the active room changes; otherwise a `leave room` for the current room
and a `join room` for the next one are emitted. -/
def switchToRoom (username room next : String) : String × List Ev :=
  if jsTrim username = "" then (next, [])
  else (next, [.leave username room, .join username next])

/-- Result of the room-management handlers: new `joinedRooms` state, new
active room, new storage, and the socket events emitted. -/
structure AppResult where
  joinedRooms : List String
  room : String
  store : Storage
  events : List Ev

/-- `handleRenameRoomConfirm` (App lines 481-548): guarded on a selected
room and a non-empty username; a trimmed-empty or unchanged name is a no-op;
otherwise the joined-room list entry is rewritten, the `chatMessages` and
`likedMap` values are moved (verbatim) from the old room's keys to the new
room's keys, and, only if the renamed room is the active one,
`switchToRoom` emits leave/join for the relay. -/
def handleRenameRoomConfirm (username : String) (roomToManage : Option String)
    (renameValue : String) (joinedRooms : List String) (room : String)
    (st : Storage) : AppResult :=
  match roomToManage with
  | none => ⟨joinedRooms, room, st, []⟩
  | some oldRoom =>
    if oldRoom = "" ∨ jsTrim username = "" then ⟨joinedRooms, room, st, []⟩
    else
      let nextName := jsTrim renameValue
      if nextName = "" ∨ nextName = oldRoom then ⟨joinedRooms, room, st, []⟩
      else
        let updatedList := joinedRooms.map fun r => if r = oldRoom then nextName else r
        let st1 := setRooms username (some (.ok updatedList)) st
        let st2 :=
          match st1.chatMessages oldRoom with
          | some v => setMsgs oldRoom none (setMsgs nextName (some v) st1)
          | none => st1
        let st3 :=
          match st2.likedMap oldRoom (userKey username) with
          | some v => setLiked oldRoom (userKey username) none
              (setLiked nextName (userKey username) (some v) st2)
          | none => st2
        if room = oldRoom then
          let sw := switchToRoom username room nextName
          ⟨updatedList, sw.1, st3, sw.2⟩
        else ⟨updatedList, room, st3, []⟩

/-- `handleDeleteRoom` (App lines 554-597): guarded on a selected room and
a non-empty username; filters the room out of the joined list, persists it,
removes the room's message and liked-map keys, and, if the deleted room was
active, switches to the first remaining room (re-adding `"general"` via
`addRoomForUser` when no room remains). -/
def handleDeleteRoom (username : String) (roomToManage : Option String)
    (joinedRooms : List String) (room : String) (st : Storage) : AppResult :=
  match roomToManage with
  | none => ⟨joinedRooms, room, st, []⟩
  | some target =>
    if target = "" ∨ jsTrim username = "" then ⟨joinedRooms, room, st, []⟩
    else
      let updatedList := joinedRooms.filter fun r => r ≠ target
      let st1 := setRooms username (some (.ok updatedList)) st
      let st2 := setMsgs target none st1
      let st3 := setLiked target (userKey username) none st2
      if room = target then
        match updatedList with
        | f :: _ =>
          let sw := switchToRoom username room f
          ⟨updatedList, sw.1, st3, sw.2⟩
        | [] =>
          let ad := addRoomForUser username "general" st3
          let sw := switchToRoom username room "general"
          ⟨ad.1, sw.1, ad.2, sw.2⟩
      else ⟨updatedList, room, st3, []⟩

/-- `handleLogout` (App lines 603-638), the storage-relevant part: when the
user was in the chat, emit `leave room`, reset `likes` to `0` on every
message of the active room's stored list (kept as-is if the stored value
does not parse), and remove this user's liked-map key for the room. -/
def handleLogout (isReady : Bool) (username room : String) (st : Storage) :
    Storage × List Ev :=
  if isReady then
    let st1 :=
      match st.chatMessages room with
      | some (.ok l) =>
          setMsgs room (some (.ok (l.map fun m => { m with likes := some 0 }))) st
      | _ => st
    let st2 := setLiked room (userKey username) none st1
    (st2, [.leave username room])
  else (st, [])

/-- The three client-store operations of claim C1: appending an incoming
message, applying a relayed like delta, and the local like toggle. -/
inductive StoreOp where
  | append (msg : InMsg)
  | delta (id : String) (d : Int) (r : Option String)
  | toggle (id : String)

/-- One client-store step, dispatching to the corresponding handler. -/
def stepOp (cur user : String) (op : StoreOp) (s : StoreState) : StoreState :=
  match op with
  | .append msg =>
      let r := handleChatMessage cur msg s.msgs s.store
      ⟨r.1, s.liked, r.2⟩
  | .delta id d evRoom =>
      let r := handleToggleLike cur id d evRoom s.msgs s.store
      ⟨r.1, s.liked, r.2⟩
  | .toggle id => (handleLikeClick cur user id s).1

/-- `k` successive like-toggle clicks on the same message, collecting the
emitted `toggle like` events in order. -/
def clickN (cur user id : String) : Nat → StoreState → StoreState × List Ev
  | 0, s => (s, [])
  | k + 1, s =>
      let r := clickN cur user id k s
      let c := handleLikeClick cur user id r.1
      (c.1, r.2 ++ [c.2])

/-- Every stored like counter is nonnegative. -/
def likesNonneg (l : List ChatMessage) : Prop := ∀ m ∈ l, 0 ≤ m.likes

instance (l : List ChatMessage) : Decidable (likesNonneg l) :=
  inferInstanceAs (Decidable (∀ m ∈ l, 0 ≤ m.likes))

theorem lmGet_lmSet_same (m : LikedMap) (id : String) (b : Bool) :
    lmGet (lmSet m id b) id = b := by
  simp [lmGet, lmSet]

theorem lmSet_lmSet_same (m : LikedMap) (id : String) (b b' : Bool) :
    lmSet (lmSet m id b) id b' = lmSet m id b' := by
  funext k
  by_cases h : k = id <;> simp [lmSet, h]

theorem setMsgs_setMsgs (r : String) (v v' : Option (Stored (List RawMsg))) (st : Storage) :
    setMsgs r v (setMsgs r v' st) = setMsgs r v st := by
  unfold setMsgs
  congr 1
  funext k
  by_cases h : k = r <;> simp [h]

theorem setLiked_setLiked (r u : String) (w w' : Option (Stored LikedMap)) (st : Storage) :
    setLiked r u w (setLiked r u w' st) = setLiked r u w st := by
  unfold setLiked
  congr 1
  funext a b
  by_cases h : a = r ∧ b = u <;> simp [h]

theorem setMsgs_setLiked_comm (r r' u : String) (v : Option (Stored (List RawMsg)))
    (w : Option (Stored LikedMap)) (st : Storage) :
    setMsgs r v (setLiked r' u w st) = setLiked r' u w (setMsgs r v st) := rfl

theorem normalizeFrom_toRaw (fresh : Nat → String) (now room : String) (l : List ChatMessage) :
    ∀ i, normalizeFrom fresh now room i (l.map toRaw) =
      l.map (fun m => { m with room := some (m.room.getD room) }) := by
  induction l with
  | nil => intro i; rfl
  | cons m rest ih =>
      intro i
      simp only [List.map_cons, normalizeFrom]
      rw [ih]
      rfl

theorem map_room_getD_self (room : String) (l : List ChatMessage)
    (h : ∀ m ∈ l, (m.room).isSome) :
    l.map (fun m => { m with room := some (m.room.getD room) }) = l := by
  induction l with
  | nil => rfl
  | cons m rest ih =>
      have hm := h m (List.mem_cons_self m rest)
      have ht := ih fun x hx => h x (List.mem_cons_of_mem m hx)
      obtain ⟨mid, mu, mm, mt, ml, mr⟩ := m
      obtain ⟨r, hr⟩ := Option.isSome_iff_exists.mp hm
      subst hr
      simp only [List.map_cons]
      rw [ht]
      rfl

theorem bumpLikes_cancel (id : String) (l : List ChatMessage) :
    bumpLikes id (-1) (bumpLikes id 1 l) = l := by
  induction l with
  | nil => rfl
  | cons m rest ih =>
      simp only [bumpLikes, List.map_cons] at ih ⊢
      rw [ih]
      cases m with
      | mk mid mu mm mt ml mr => by_cases h : mid = id <;> simp [h]

/-- C8: loading a room's messages from a stored value that fails to parse as
JSON removes the corrupted storage entry and yields the empty message list,
and loading from an absent key yields the empty list with storage untouched. -/
theorem C8_load_corrupt_resets (room : String) (fresh : Nat → String) (now : String)
    (st : Storage) :
    (st.chatMessages room = some Stored.corrupt →
      (loadRoomMessages room fresh now st).1 = [] ∧
      (loadRoomMessages room fresh now st).2.chatMessages room = none) ∧
    (st.chatMessages room = none →
      (loadRoomMessages room fresh now st).1 = [] ∧
      (loadRoomMessages room fresh now st).2 = st) := by
  constructor
  · intro h
    simp [loadRoomMessages, h, setMsgs]
  · intro h
    simp [loadRoomMessages, h]

/-- A storage holding only a corrupted message entry for room `"r"`. -/
def stCor : Storage := setMsgs "r" (some Stored.corrupt) emptyStorage

theorem C8_witness :
    (loadRoomMessages "r" (fun _ => "g") "t" stCor).1 = [] ∧
    (loadRoomMessages "r" (fun _ => "g") "t" stCor).2.chatMessages "r" = none :=
  (C8_load_corrupt_resets "r" (fun _ => "g") "t" stCor).1 (by decide)

/-- C5: persisting a room's message list and then reloading that room yields
the original list up to normalization of the missing optional `room` field
to the current room; a list whose messages all carry a room reloads to
exactly the persisted list. -/
theorem C5_persist_reload_roundtrip (room now : String) (fresh : Nat → String)
    (st : Storage) (l : List ChatMessage) :
    (loadRoomMessages room fresh now (persistMsgs room l st)).1 =
      l.map (fun m => { m with room := some (m.room.getD room) }) ∧
    ((∀ m ∈ l, (m.room).isSome) →
      (loadRoomMessages room fresh now (persistMsgs room l st)).1 = l) := by
  have hread : (persistMsgs room l st).chatMessages room = some (Stored.ok (l.map toRaw)) := by
    simp [persistMsgs, setMsgs]
  constructor
  · simp [loadRoomMessages, hread, normalizeList, normalizeFrom_toRaw]
  · intro h
    simp [loadRoomMessages, hread, normalizeList, normalizeFrom_toRaw,
      map_room_getD_self room l h]

/-- A normalized test message. -/
def msgA : ChatMessage :=
  { id := "m1", username := "bob", message := "hi", timestamp := "t0",
    likes := 0, room := some "general" }

theorem C5_witness :
    (loadRoomMessages "general" (fun _ => "u") "t1"
      (persistMsgs "general" [msgA] emptyStorage)).1 = [msgA] :=
  (C5_persist_reload_roundtrip "general" "t1" (fun _ => "u") emptyStorage [msgA]).2 (by decide)

theorem storedRooms_setRooms_same (user : String) (l : List String) (st : Storage) :
    storedRooms (setRooms user (some (Stored.ok l)) st) user = l := by
  simp [storedRooms, setRooms]

theorem storedRooms_addRoom (user n : String) (st : Storage) :
    storedRooms (addRoomForUser user n st).2 user =
      if n ∈ storedRooms st user then storedRooms st user
      else storedRooms st user ++ [n] := by
  by_cases h : n ∈ storedRooms st user
  · rw [if_pos h]
    simp only [addRoomForUser, if_pos h]
  · rw [if_neg h]
    simp only [addRoomForUser, if_neg h]
    exact storedRooms_setRooms_same user _ st

theorem addRoom_nodup (user n : String) (st : Storage)
    (h : (storedRooms st user).Nodup) :
    (storedRooms (addRoomForUser user n st).2 user).Nodup := by
  rw [storedRooms_addRoom]
  by_cases hm : n ∈ storedRooms st user
  · simp [hm, h]
  · simp [hm, List.nodup_append, h]

/-- A joined-room list built solely by `addRoomForUser` calls. -/
def buildRooms (user : String) (names : List String) : Storage :=
  names.foldl (fun st n => (addRoomForUser user n st).2) emptyStorage

theorem buildRooms_nodup_aux (user : String) (names : List String) :
    ∀ st : Storage, (storedRooms st user).Nodup →
      (storedRooms (names.foldl (fun st n => (addRoomForUser user n st).2) st) user).Nodup := by
  induction names with
  | nil => intro st h; exact h
  | cons n rest ih =>
      intro st h
      exact ih _ (addRoom_nodup user n st h)

/-- C10: adding a room to a user's persisted joined-room list is idempotent:
a name already present leaves the storage unchanged, an absent name is
appended at the end, and a list built solely by this operation has no
duplicates. -/
theorem C10_addRoomForUser_idem (user name : String) (st : Storage) :
    (addRoomForUser user name st).1 =
      (if name ∈ storedRooms st user then storedRooms st user
       else storedRooms st user ++ [name]) ∧
    (name ∈ storedRooms st user → (addRoomForUser user name st).2 = st) ∧
    (name ∉ storedRooms st user →
      storedRooms (addRoomForUser user name st).2 user = storedRooms st user ++ [name]) ∧
    (∀ names : List String, (storedRooms (buildRooms user names) user).Nodup) := by
  refine ⟨?_, ?_, ?_, ?_⟩
  · by_cases h : name ∈ storedRooms st user
    · rw [if_pos h]
      simp only [addRoomForUser, if_pos h]
    · rw [if_neg h]
      simp only [addRoomForUser, if_neg h]
  · intro h
    simp only [addRoomForUser, if_pos h]
  · intro h
    simp only [addRoomForUser, if_neg h]
    exact storedRooms_setRooms_same user _ st
  · intro names
    exact buildRooms_nodup_aux user names emptyStorage (by simp [storedRooms, emptyStorage])

theorem C10_witness :
    storedRooms (addRoomForUser "u" "general" emptyStorage).2 "u" =
      storedRooms emptyStorage "u" ++ ["general"] :=
  (C10_addRoomForUser_idem "u" "general" emptyStorage).2.2.1 (by decide)

theorem bumpLikes_get (id : String) (d : Int) (l : List ChatMessage)
    (i : Nat) (h1 : i < l.length) (h2 : i < (bumpLikes id d l).length) :
    (bumpLikes id d l).get ⟨i, h2⟩ =
      if (l.get ⟨i, h1⟩).id = id then
        { l.get ⟨i, h1⟩ with likes := (l.get ⟨i, h1⟩).likes + d }
      else l.get ⟨i, h1⟩ := by
  simp only [bumpLikes, List.get_eq_getElem, List.getElem_map]

/-- C2: applying a relayed like delta whose id matches a stored message adds
exactly the delta to that message's counter and changes no other field and
no other message; a delta whose id matches no stored message leaves the
list unchanged. -/
theorem C2_applyLikeDelta_frame (cur id : String) (d : Int) (evRoom : Option String)
    (msgs : List ChatMessage) (st : Storage)
    (hroom : roomMismatch evRoom cur = false) :
    (handleToggleLike cur id d evRoom msgs st).1.length = msgs.length ∧
    (∀ i (h1 : i < msgs.length)
        (h2 : i < (handleToggleLike cur id d evRoom msgs st).1.length),
      ((msgs.get ⟨i, h1⟩).id = id →
        ((handleToggleLike cur id d evRoom msgs st).1.get ⟨i, h2⟩).likes =
            (msgs.get ⟨i, h1⟩).likes + d ∧
        ((handleToggleLike cur id d evRoom msgs st).1.get ⟨i, h2⟩).id =
            (msgs.get ⟨i, h1⟩).id ∧
        ((handleToggleLike cur id d evRoom msgs st).1.get ⟨i, h2⟩).username =
            (msgs.get ⟨i, h1⟩).username ∧
        ((handleToggleLike cur id d evRoom msgs st).1.get ⟨i, h2⟩).message =
            (msgs.get ⟨i, h1⟩).message ∧
        ((handleToggleLike cur id d evRoom msgs st).1.get ⟨i, h2⟩).timestamp =
            (msgs.get ⟨i, h1⟩).timestamp ∧
        ((handleToggleLike cur id d evRoom msgs st).1.get ⟨i, h2⟩).room =
            (msgs.get ⟨i, h1⟩).room) ∧
      ((msgs.get ⟨i, h1⟩).id ≠ id →
        (handleToggleLike cur id d evRoom msgs st).1.get ⟨i, h2⟩ = msgs.get ⟨i, h1⟩)) ∧
    ((∀ m ∈ msgs, m.id ≠ id) → (handleToggleLike cur id d evRoom msgs st).1 = msgs) := by
  have heq : (handleToggleLike cur id d evRoom msgs st).1 = bumpLikes id d msgs := by
    simp [handleToggleLike, hroom]
  refine ⟨?_, ?_, ?_⟩
  · rw [heq]
    simp [bumpLikes]
  · intro i h1 h2
    have h2' : i < (bumpLikes id d msgs).length := heq ▸ h2
    have hget : (handleToggleLike cur id d evRoom msgs st).1.get ⟨i, h2⟩ =
        (bumpLikes id d msgs).get ⟨i, h2'⟩ := by
      exact List.get_of_eq heq ⟨i, h2⟩
    rw [hget, bumpLikes_get id d msgs i h1 h2']
    constructor
    · intro hid
      rw [if_pos hid]
      exact ⟨rfl, rfl, rfl, rfl, rfl, rfl⟩
    · intro hid
      rw [if_neg hid]
  · intro h
    rw [heq]
    simp only [bumpLikes]
    calc msgs.map (fun m => if m.id = id then { m with likes := m.likes + d } else m)
        = msgs.map (fun m => m) := List.map_congr_left fun m hm => if_neg (h m hm)
      _ = msgs := List.map_id' msgs

theorem C2_witness :
    (handleToggleLike "general" "m1" 5 none [msgA] emptyStorage).1.length = [msgA].length :=
  (C2_applyLikeDelta_frame "general" "m1" 5 none [msgA] emptyStorage (by decide)).1

/-- C9: logging out while in a room whose stored message list parses resets
every stored message's likes to 0 with all other fields unchanged, and
removes the per-user liked-map key for that room. -/
theorem C9_logout_resets_likes (username room : String) (st : Storage) (l : List RawMsg)
    (h : st.chatMessages room = some (Stored.ok l)) :
    (handleLogout true username room st).1.chatMessages room =
      some (Stored.ok (l.map fun m =>
        { id := m.id, username := m.username, message := m.message,
          timestamp := m.timestamp, likes := some 0, room := m.room })) ∧
    (handleLogout true username room st).1.likedMap room (userKey username) = none ∧
    (handleLogout true username room st).2 = [Ev.leave username room] := by
  refine ⟨?_, ?_, ?_⟩
  · simp [handleLogout, h, setLiked, setMsgs]
  · simp [handleLogout, h, setLiked]
  · simp [handleLogout]

/-- A raw stored message with all fields present and one like. -/
def rawA : RawMsg :=
  { id := some "m1", username := some "bob", message := some "hi",
    timestamp := some "t0", likes := some 1, room := some "general" }

/-- A storage holding one message list and one liked map for room `"work"`. -/
def stWork : Storage :=
  setLiked "work" "alice" (some (Stored.ok lmEmpty))
    (setMsgs "work" (some (Stored.ok [rawA])) emptyStorage)

/-- `rawA` with its like counter reset. -/
def rawA0 : RawMsg := { rawA with likes := some 0 }

theorem C9_witness :
    (handleLogout true "alice" "work" stWork).1.chatMessages "work" =
      some (Stored.ok [rawA0]) ∧
    (handleLogout true "alice" "work" stWork).1.likedMap "work" (userKey "alice") = none ∧
    (handleLogout true "alice" "work" stWork).2 = [Ev.leave "alice" "work"] :=
  C9_logout_resets_likes "alice" "work" stWork [rawA] (by decide)

/-- Safety side condition on a store operation: an append carries a
nonnegative (normalized) like count, a relayed delta keeps every matched
message's counter nonnegative, and an unlike toggle only hits a message
whose counter is at least 1. -/
def opSafe (s : StoreState) : StoreOp → Prop
  | .append msg => 0 ≤ msg.likes.getD 0
  | .delta id d _ => ∀ m ∈ s.msgs, m.id = id → 0 ≤ m.likes + d
  | .toggle id => lmGet s.liked id = true → ∀ m ∈ s.msgs, m.id = id → 1 ≤ m.likes

instance (s : StoreState) (op : StoreOp) : Decidable (opSafe s op) := by
  cases op with
  | append msg => exact inferInstanceAs (Decidable (0 ≤ msg.likes.getD 0))
  | delta id d r => exact inferInstanceAs (Decidable (∀ m ∈ s.msgs, m.id = id → 0 ≤ m.likes + d))
  | toggle id =>
      exact inferInstanceAs
        (Decidable (lmGet s.liked id = true → ∀ m ∈ s.msgs, m.id = id → 1 ≤ m.likes))

theorem likesNonneg_bumpLikes (id : String) (d : Int) (l : List ChatMessage)
    (hinv : likesNonneg l) (hsafe : ∀ m ∈ l, m.id = id → 0 ≤ m.likes + d) :
    likesNonneg (bumpLikes id d l) := by
  intro m hm
  obtain ⟨m0, hm0, rfl⟩ := List.mem_map.mp hm
  by_cases h : m0.id = id
  · rw [if_pos h]
    exact hsafe m0 hm0 h
  · rw [if_neg h]
    exact hinv m0 hm0

/-- C1 (amended): nonnegativity of every stored like counter is preserved
by an append whose normalized like count is nonnegative, by a relayed delta
that keeps every matched message's counter nonnegative, and by a toggle
whose unlike case targets a message with at least one like; it is not an
unconditional invariant (see the counterexample). -/
theorem C1_likes_nonneg_preserved (cur user : String) (op : StoreOp) (s : StoreState)
    (hinv : likesNonneg s.msgs) (hsafe : opSafe s op) :
    likesNonneg (stepOp cur user op s).msgs := by
  cases op with
  | append msg =>
      simp only [stepOp, handleChatMessage]
      split
      · exact hinv
      · intro m hm
        rcases List.mem_append.mp hm with h | h
        · exact hinv m h
        · rw [List.mem_singleton.mp h]
          exact hsafe
  | delta id d evRoom =>
      simp only [stepOp, handleToggleLike]
      split
      · exact hinv
      · exact likesNonneg_bumpLikes id d s.msgs hinv hsafe
  | toggle id =>
      simp only [stepOp, handleLikeClick]
      refine likesNonneg_bumpLikes id _ s.msgs hinv ?_
      intro m hm hid
      by_cases hb : lmGet s.liked id = true
      · rw [if_pos hb]
        have := hsafe hb m hm hid
        omega
      · rw [if_neg hb]
        have := hinv m hm
        omega

/-- An incoming test payload for message `"m1"` with zero likes. -/
def inA : InMsg :=
  { id := "m1", username := "bob", message := "hi", timestamp := "t0",
    likes := some 0, room := some "general" }

theorem C1_witness :
    likesNonneg (stepOp "general" "alice" (.delta "m1" 1 none)
      ⟨[msgA], lmEmpty, emptyStorage⟩).msgs :=
  C1_likes_nonneg_preserved "general" "alice" (.delta "m1" 1 none)
    ⟨[msgA], lmEmpty, emptyStorage⟩ (by decide) (by decide)

/-- C1 counterexample: from the reachable state obtained by appending an
incoming message with zero likes, a relayed `-1` delta for that message
drives its counter to `-1`, so nonnegativity is not preserved by deltas
received for messages whose prior likes count is 0. -/
theorem C1_counterexample :
    likesNonneg (stepOp "general" "alice" (.append inA)
      ⟨[], lmEmpty, emptyStorage⟩).msgs ∧
    ¬ likesNonneg (stepOp "general" "alice" (.delta "m1" (-1) (some "general"))
        (stepOp "general" "alice" (.append inA) ⟨[], lmEmpty, emptyStorage⟩)).msgs := by
  constructor
  · decide
  · decide

@[simp] theorem chatMessages_setMsgs (r : String) (v : Option (Stored (List RawMsg)))
    (st : Storage) (k : String) :
    (setMsgs r v st).chatMessages k = if k = r then v else st.chatMessages k := rfl

@[simp] theorem likedMap_setLiked (r u : String) (w : Option (Stored LikedMap))
    (st : Storage) (a b : String) :
    (setLiked r u w st).likedMap a b = if a = r ∧ b = u then w else st.likedMap a b := rfl

@[simp] theorem userRooms_setRooms (u : String) (v : Option (Stored (List String)))
    (st : Storage) (k : String) :
    (setRooms u v st).userRooms k = if k = u then v else st.userRooms k := rfl

@[simp] theorem chatMessages_setLiked (r u : String) (w : Option (Stored LikedMap))
    (st : Storage) : (setLiked r u w st).chatMessages = st.chatMessages := rfl

@[simp] theorem chatMessages_setRooms (u : String) (v : Option (Stored (List String)))
    (st : Storage) : (setRooms u v st).chatMessages = st.chatMessages := rfl

@[simp] theorem likedMap_setMsgs (r : String) (v : Option (Stored (List RawMsg)))
    (st : Storage) : (setMsgs r v st).likedMap = st.likedMap := rfl

@[simp] theorem likedMap_setRooms (u : String) (v : Option (Stored (List String)))
    (st : Storage) : (setRooms u v st).likedMap = st.likedMap := rfl

@[simp] theorem userRooms_setMsgs (r : String) (v : Option (Stored (List RawMsg)))
    (st : Storage) : (setMsgs r v st).userRooms = st.userRooms := rfl

@[simp] theorem userRooms_setLiked (r u : String) (w : Option (Stored LikedMap))
    (st : Storage) : (setLiked r u w st).userRooms = st.userRooms := rfl

theorem rename_joined (username oldRoom renameValue : String)
    (joined : List String) (active : String) (st : Storage)
    (hold : oldRoom ≠ "") (huser : jsTrim username ≠ "")
    (hname : jsTrim renameValue ≠ "") (hdiff : jsTrim renameValue ≠ oldRoom) :
    (handleRenameRoomConfirm username (some oldRoom) renameValue joined active st).joinedRooms =
      joined.map (fun x => if x = oldRoom then jsTrim renameValue else x) := by
  have hg1 : ¬(oldRoom = "" ∨ jsTrim username = "") := not_or.mpr ⟨hold, huser⟩
  have hg2 : ¬(jsTrim renameValue = "" ∨ jsTrim renameValue = oldRoom) :=
    not_or.mpr ⟨hname, hdiff⟩
  simp only [handleRenameRoomConfirm, if_neg hg1, if_neg hg2]
  cases hmv : st.chatMessages oldRoom <;>
    cases hlv : st.likedMap oldRoom (userKey username) <;>
      by_cases hr : active = oldRoom <;>
        simp [hmv, hlv, hr, switchToRoom]

theorem rename_events (username oldRoom renameValue : String)
    (joined : List String) (active : String) (st : Storage)
    (hold : oldRoom ≠ "") (huser : jsTrim username ≠ "")
    (hname : jsTrim renameValue ≠ "") (hdiff : jsTrim renameValue ≠ oldRoom) :
    (handleRenameRoomConfirm username (some oldRoom) renameValue joined active st).events =
      (if active = oldRoom then
        [Ev.leave username active, Ev.join username (jsTrim renameValue)]
       else []) := by
  have hg1 : ¬(oldRoom = "" ∨ jsTrim username = "") := not_or.mpr ⟨hold, huser⟩
  have hg2 : ¬(jsTrim renameValue = "" ∨ jsTrim renameValue = oldRoom) :=
    not_or.mpr ⟨hname, hdiff⟩
  simp only [handleRenameRoomConfirm, if_neg hg1, if_neg hg2]
  cases hmv : st.chatMessages oldRoom <;>
    cases hlv : st.likedMap oldRoom (userKey username) <;>
      by_cases hr : active = oldRoom <;>
        simp [hmv, hlv, hr, switchToRoom, huser]

theorem rename_moves_msgs (username oldRoom renameValue : String)
    (joined : List String) (active : String) (st : Storage)
    (v : Stored (List RawMsg))
    (hold : oldRoom ≠ "") (huser : jsTrim username ≠ "")
    (hname : jsTrim renameValue ≠ "") (hdiff : jsTrim renameValue ≠ oldRoom)
    (hmsgs : st.chatMessages oldRoom = some v) :
    (handleRenameRoomConfirm username (some oldRoom) renameValue joined active st).store.chatMessages
      (jsTrim renameValue) = some v ∧
    (handleRenameRoomConfirm username (some oldRoom) renameValue joined active st).store.chatMessages
      oldRoom = none := by
  have hg1 : ¬(oldRoom = "" ∨ jsTrim username = "") := not_or.mpr ⟨hold, huser⟩
  have hg2 : ¬(jsTrim renameValue = "" ∨ jsTrim renameValue = oldRoom) :=
    not_or.mpr ⟨hname, hdiff⟩
  simp only [handleRenameRoomConfirm, if_neg hg1, if_neg hg2]
  cases hlv : st.likedMap oldRoom (userKey username) <;>
    by_cases hr : active = oldRoom <;>
      simp [hmsgs, hlv, hr, hdiff, Ne.symm hold]

theorem rename_moves_liked (username oldRoom renameValue : String)
    (joined : List String) (active : String) (st : Storage)
    (w : Stored LikedMap)
    (hold : oldRoom ≠ "") (huser : jsTrim username ≠ "")
    (hname : jsTrim renameValue ≠ "") (hdiff : jsTrim renameValue ≠ oldRoom)
    (hliked : st.likedMap oldRoom (userKey username) = some w) :
    (handleRenameRoomConfirm username (some oldRoom) renameValue joined active st).store.likedMap
      (jsTrim renameValue) (userKey username) = some w ∧
    (handleRenameRoomConfirm username (some oldRoom) renameValue joined active st).store.likedMap
      oldRoom (userKey username) = none := by
  have hg1 : ¬(oldRoom = "" ∨ jsTrim username = "") := not_or.mpr ⟨hold, huser⟩
  have hg2 : ¬(jsTrim renameValue = "" ∨ jsTrim renameValue = oldRoom) :=
    not_or.mpr ⟨hname, hdiff⟩
  simp only [handleRenameRoomConfirm, if_neg hg1, if_neg hg2]
  cases hmv : st.chatMessages oldRoom <;>
    by_cases hr : active = oldRoom <;>
      simp [hmv, hliked, hr, hdiff, Ne.symm hold]

/-- C4 (amended): a confirmed rename rewrites the joined-room list entry and
migrates the message and like-state storage keys; renaming a room other than
the active one emits no relay events, but renaming the active room emits a
`leave room` for the old name and a `join room` for the new name. -/
theorem C4_rename_local_relabeling (username oldRoom renameValue : String)
    (joined : List String) (active : String) (st : Storage)
    (hold : oldRoom ≠ "") (huser : jsTrim username ≠ "")
    (hname : jsTrim renameValue ≠ "") (hdiff : jsTrim renameValue ≠ oldRoom) :
    (handleRenameRoomConfirm username (some oldRoom) renameValue joined active st).joinedRooms =
      joined.map (fun x => if x = oldRoom then jsTrim renameValue else x) ∧
    (∀ v, st.chatMessages oldRoom = some v →
      (handleRenameRoomConfirm username (some oldRoom) renameValue joined active st).store.chatMessages
        (jsTrim renameValue) = some v ∧
      (handleRenameRoomConfirm username (some oldRoom) renameValue joined active st).store.chatMessages
        oldRoom = none) ∧
    (∀ w, st.likedMap oldRoom (userKey username) = some w →
      (handleRenameRoomConfirm username (some oldRoom) renameValue joined active st).store.likedMap
        (jsTrim renameValue) (userKey username) = some w ∧
      (handleRenameRoomConfirm username (some oldRoom) renameValue joined active st).store.likedMap
        oldRoom (userKey username) = none) ∧
    (handleRenameRoomConfirm username (some oldRoom) renameValue joined active st).events =
      (if active = oldRoom then
        [Ev.leave username active, Ev.join username (jsTrim renameValue)]
       else []) :=
  ⟨rename_joined username oldRoom renameValue joined active st hold huser hname hdiff,
   fun v hv => rename_moves_msgs username oldRoom renameValue joined active st v
     hold huser hname hdiff hv,
   fun w hw => rename_moves_liked username oldRoom renameValue joined active st w
     hold huser hname hdiff hw,
   rename_events username oldRoom renameValue joined active st hold huser hname hdiff⟩

theorem C4_witness :
    (handleRenameRoomConfirm "alice" (some "work") "team" ["work", "x"] "x"
      emptyStorage).events = [] := by
  have h := (C4_rename_local_relabeling "alice" "work" "team" ["work", "x"] "x"
    emptyStorage (by decide) (by decide) (by decide) (by decide)).2.2.2
  simpa using h

/-- C4 counterexample: renaming the currently active room does emit relay
events — a `leave room` for the old name and a `join room` for the new one —
refuting "no relay events are emitted" for every rename. -/
theorem C4_counterexample :
    (handleRenameRoomConfirm "alice" (some "work") "team" ["work"] "work"
      emptyStorage).events = [Ev.leave "alice" "work", Ev.join "alice" "team"] ∧
    (handleRenameRoomConfirm "alice" (some "work") "team" ["work"] "work"
      emptyStorage).events ≠ [] := by
  constructor
  · decide
  · decide

/-- C6: with a non-empty new name different from the old one, a confirmed
rename moves the stored message list and the per-user like-state map from
the old room's storage keys to the new room's keys, deleting the old keys;
hence every message persisted before the rename is present under the new
key after it. -/
theorem C6_rename_migrates_storage (username oldRoom renameValue : String)
    (joined : List String) (active : String) (st : Storage)
    (v : Stored (List RawMsg)) (w : Stored LikedMap)
    (_hmem : oldRoom ∈ joined)
    (hold : oldRoom ≠ "") (huser : jsTrim username ≠ "")
    (hname : jsTrim renameValue ≠ "") (hdiff : jsTrim renameValue ≠ oldRoom)
    (hmsgs : st.chatMessages oldRoom = some v)
    (hliked : st.likedMap oldRoom (userKey username) = some w) :
    (handleRenameRoomConfirm username (some oldRoom) renameValue joined active st).store.chatMessages
      (jsTrim renameValue) = some v ∧
    (handleRenameRoomConfirm username (some oldRoom) renameValue joined active st).store.chatMessages
      oldRoom = none ∧
    (handleRenameRoomConfirm username (some oldRoom) renameValue joined active st).store.likedMap
      (jsTrim renameValue) (userKey username) = some w ∧
    (handleRenameRoomConfirm username (some oldRoom) renameValue joined active st).store.likedMap
      oldRoom (userKey username) = none ∧
    (∀ lraw : List RawMsg, v = Stored.ok lraw → ∀ m ∈ lraw,
      ∃ lnew : List RawMsg,
        (handleRenameRoomConfirm username (some oldRoom) renameValue joined active st).store.chatMessages
          (jsTrim renameValue) = some (Stored.ok lnew) ∧ m ∈ lnew) := by
  obtain ⟨hm1, hm2⟩ := rename_moves_msgs username oldRoom renameValue joined active st v
    hold huser hname hdiff hmsgs
  obtain ⟨hl1, hl2⟩ := rename_moves_liked username oldRoom renameValue joined active st w
    hold huser hname hdiff hliked
  refine ⟨hm1, hm2, hl1, hl2, ?_⟩
  intro lraw hv m hm
  exact ⟨lraw, by rw [hm1, hv], hm⟩

theorem C6_witness :
    (handleRenameRoomConfirm "alice" (some "work") "team" ["work"] "x"
      stWork).store.chatMessages "team" = some (Stored.ok [rawA]) ∧
    (handleRenameRoomConfirm "alice" (some "work") "team" ["work"] "x"
      stWork).store.chatMessages "work" = none ∧
    (handleRenameRoomConfirm "alice" (some "work") "team" ["work"] "x"
      stWork).store.likedMap "team" (userKey "alice") = some (Stored.ok lmEmpty) ∧
    (handleRenameRoomConfirm "alice" (some "work") "team" ["work"] "x"
      stWork).store.likedMap "work" (userKey "alice") = none :=
  have h := C6_rename_migrates_storage "alice" "work" "team" ["work"] "x" stWork
    (Stored.ok [rawA]) (Stored.ok lmEmpty) (by decide) (by decide) (by decide)
    (by decide) (by decide) (by decide) (by rfl)
  ⟨h.1, h.2.1, h.2.2.1, h.2.2.2.1⟩

/-- C7 (amended): deleting a room removes the room's message-list key and
the per-user like-state key, and loading that room afterwards yields the
empty list; the room is removed from the joined-room list except in one
case — deleting `"general"` while it is the active room and no other room
remains re-adds `"general"` as the fallback, leaving it in the list. -/
theorem C7_delete_room (username target : String) (joined : List String)
    (active : String) (st : Storage) (fresh : Nat → String) (now : String)
    (htarget : target ≠ "") (huser : jsTrim username ≠ "") :
    (handleDeleteRoom username (some target) joined active st).store.chatMessages target = none ∧
    (handleDeleteRoom username (some target) joined active st).store.likedMap target
      (userKey username) = none ∧
    (loadRoomMessages target fresh now
      (handleDeleteRoom username (some target) joined active st).store).1 = [] ∧
    (¬(active = target ∧ joined.filter (fun r => r ≠ target) = [] ∧ target = "general") →
      target ∉ (handleDeleteRoom username (some target) joined active st).joinedRooms) ∧
    ((active = target ∧ joined.filter (fun r => r ≠ target) = []) →
      (handleDeleteRoom username (some target) joined active st).joinedRooms = ["general"]) := by
  have hg : ¬(target = "" ∨ jsTrim username = "") := not_or.mpr ⟨htarget, huser⟩
  have hnone : (handleDeleteRoom username (some target) joined active st).store.chatMessages
      target = none := by
    simp only [handleDeleteRoom, if_neg hg]
    by_cases hr : active = target
    · cases hf : joined.filter (fun r => r ≠ target) with
      | nil => simp [hr, hf, addRoomForUser, storedRooms]
      | cons f rest => simp [hr, hf]
    · simp [hr]
  have hlnone : (handleDeleteRoom username (some target) joined active st).store.likedMap
      target (userKey username) = none := by
    simp only [handleDeleteRoom, if_neg hg]
    by_cases hr : active = target
    · cases hf : joined.filter (fun r => r ≠ target) with
      | nil => simp [hr, hf, addRoomForUser, storedRooms]
      | cons f rest => simp [hr, hf]
    · simp [hr]
  refine ⟨hnone, hlnone, ?_, ?_, ?_⟩
  · simp [loadRoomMessages, hnone]
  · intro hnot
    simp only [handleDeleteRoom, if_neg hg]
    by_cases hr : active = target
    · cases hf : joined.filter (fun r => r ≠ target) with
      | nil =>
          simp only [hr, hf, if_pos rfl]
          have htg : target ≠ "general" := fun h => hnot ⟨hr, hf, h⟩
          simp [addRoomForUser, storedRooms, htg]
      | cons f rest =>
          simp only [hr, hf, if_pos rfl]
          have : target ∉ joined.filter (fun r => r ≠ target) := by
            intro hmem
            have := List.of_mem_filter hmem
            simp at this
          rw [hf] at this
          simpa using this
    · simp only [if_neg hr]
      have : target ∉ joined.filter (fun r => r ≠ target) := by
        intro hmem
        have := List.of_mem_filter hmem
        simp at this
      simpa using this
  · intro hcase
    obtain ⟨hr, hf⟩ := hcase
    simp only [handleDeleteRoom, if_neg hg, hr, hf, if_pos rfl]
    simp [addRoomForUser, storedRooms, hf]

theorem C7_witness :
    (handleDeleteRoom "u" (some "work") ["work", "x"] "work"
      emptyStorage).store.chatMessages "work" = none ∧
    "work" ∉ (handleDeleteRoom "u" (some "work") ["work", "x"] "work"
      emptyStorage).joinedRooms :=
  have h := C7_delete_room "u" "work" ["work", "x"] "work" emptyStorage
    (fun _ => "g") "t" (by decide) (by decide)
  ⟨h.1, h.2.2.2.1 (by decide)⟩

/-- C7 counterexample: deleting room `"general"` while it is the active room
and the only joined room re-adds `"general"` to the joined-room list, so the
deleted room is not removed from the list in this case (its storage keys are
still removed). -/
theorem C7_counterexample :
    (handleDeleteRoom "u" (some "general") ["general"] "general"
      emptyStorage).joinedRooms = ["general"] ∧
    "general" ∈ (handleDeleteRoom "u" (some "general") ["general"] "general"
      emptyStorage).joinedRooms ∧
    (handleDeleteRoom "u" (some "general") ["general"] "general"
      emptyStorage).store.chatMessages "general" = none := by
  refine ⟨?_, ?_, ?_⟩
  · decide
  · decide
  · decide

/-- The delta emitted by the j-th toggle (0-indexed): +1 on even indices
(odd click numbers), -1 on odd indices. -/
def toggleDelta (j : Nat) : Int := if j % 2 = 0 then 1 else -1

theorem clickStore_collapse (c u : String) (v v' : Option (Stored (List RawMsg)))
    (w w' : Option (Stored LikedMap)) (st : Storage) :
    setLiked c u w' (setMsgs c v' (setLiked c u w (setMsgs c v st))) =
      setLiked c u w' (setMsgs c v' st) := by
  rw [setMsgs_setLiked_comm, setLiked_setLiked, setMsgs_setMsgs]

theorem clickN_char (cur user id : String) (s : StoreState) (h0 : lmGet s.liked id = false) :
    ∀ k : Nat,
      clickN cur user id (k + 1) s =
        (⟨(if (k + 1) % 2 = 1 then bumpLikes id 1 s.msgs else s.msgs),
          lmSet s.liked id (decide ((k + 1) % 2 = 1)),
          setLiked cur (userKey user)
            (some (Stored.ok (lmSet s.liked id (decide ((k + 1) % 2 = 1)))))
            (persistMsgs cur
              (if (k + 1) % 2 = 1 then bumpLikes id 1 s.msgs else s.msgs) s.store)⟩,
         (List.range (k + 1)).map fun j => Ev.toggle id (toggleDelta j) cur) := by
  intro k
  induction k with
  | zero =>
      simp [clickN, handleLikeClick, h0, toggleDelta, persistMsgs, List.range_succ]
  | succ n ih =>
      have step : ∀ m : Nat, clickN cur user id (m + 1) s =
          ((handleLikeClick cur user id (clickN cur user id m s).1).1,
           (clickN cur user id m s).2 ++
             [(handleLikeClick cur user id (clickN cur user id m s).1).2]) :=
        fun m => rfl
      rw [step (n + 1), ih]
      simp only [handleLikeClick, lmGet_lmSet_same, lmSet_lmSet_same]
      rcases Nat.mod_two_eq_zero_or_one (n + 1) with h2 | h2
      · have h3 : (n + 1 + 1) % 2 = 1 := by omega
        simp only [h2, h3]
        norm_num
        refine ⟨?_, ?_⟩
        · simp only [persistMsgs]
          exact clickStore_collapse _ _ _ _ _ _ _
        · conv_rhs => rw [List.range_succ]
          simp [toggleDelta, h2]
      · have h3 : (n + 1 + 1) % 2 = 0 := by omega
        simp only [h2, h3]
        norm_num
        refine ⟨⟨bumpLikes_cancel id s.msgs, ?_⟩, ?_⟩
        · rw [bumpLikes_cancel]
          simp only [persistMsgs]
          exact clickStore_collapse _ _ _ _ _ _ _
        · conv_rhs => rw [List.range_succ]
          simp [toggleDelta, h2]

/-- C3: starting unliked, after the k-th toggle the persisted per-user liked
boolean equals (k odd), the emitted deltas alternate +1, -1, +1, ... (the
k-th emitted delta is +1 for odd k, -1 for even k), and after any even
number of toggles the message list — hence every like counter — returns to
its original value. -/
theorem C3_toggle_alternation (cur user id : String) (k : Nat) (s : StoreState)
    (h0 : lmGet s.liked id = false) (hk : 1 ≤ k) :
    (∃ lm : LikedMap,
      (clickN cur user id k s).1.store.likedMap cur (userKey user) = some (Stored.ok lm) ∧
      lmGet lm id = decide (k % 2 = 1)) ∧
    lmGet (clickN cur user id k s).1.liked id = decide (k % 2 = 1) ∧
    (clickN cur user id k s).2 =
      (List.range k).map (fun j => Ev.toggle id (toggleDelta j) cur) ∧
    (k % 2 = 0 → (clickN cur user id k s).1.msgs = s.msgs) := by
  obtain ⟨n, rfl⟩ : ∃ n, k = n + 1 := ⟨k - 1, by omega⟩
  rw [clickN_char cur user id s h0 n]
  refine ⟨⟨lmSet s.liked id (decide ((n + 1) % 2 = 1)), ?_, lmGet_lmSet_same _ _ _⟩,
    lmGet_lmSet_same _ _ _, rfl, ?_⟩
  · simp
  · intro he
    have hno : ¬((n + 1) % 2 = 1) := by omega
    rw [if_neg hno]

theorem C3_witness :
    (clickN "general" "alice" "m1" 2 ⟨[msgA], lmEmpty, emptyStorage⟩).1.msgs = [msgA] :=
  (C3_toggle_alternation "general" "alice" "m1" 2 ⟨[msgA], lmEmpty, emptyStorage⟩
    (by decide) (by decide)).2.2.2 (by decide)
